import Mathlib

/-!
Verification of the multi-source content resolution and acquisition pipeline
of the Telegram media downloader bot.

The Python sources under `src/` are shallowly embedded below:
pure string/regex code is translated to executable Lean functions;
network-performing strategies and acquisition methods are inputs (oracles)
to the functions that orchestrate them; the filesystem is a list of paths;
exceptions are `Except` values.
-/

set_option maxRecDepth 10000

-- ============================================================================
-- Generic string / list helpers (Python `in`, `strip`, `lower`, `split`)
-- ============================================================================

/-- `isPrefixL pat s`: does `pat` occur at the start of `s`? -/
def isPrefixL : List Char → List Char → Bool
  | [], _ => true
  | _ :: _, [] => false
  | a :: as, b :: bs => a == b && isPrefixL as bs

/-- `containsL pat s`: does `pat` occur as a contiguous sublist of `s`?
Models Python `pat in s` for strings. -/
def containsL (pat : List Char) : List Char → Bool
  | [] => isPrefixL pat []
  | c :: rest => isPrefixL pat (c :: rest) || containsL pat rest

/-- Python `pat in s` on strings. -/
def strContains (s pat : String) : Bool := containsL pat.data s.data

def isPyWS (c : Char) : Bool :=
  c == ' ' || c == '\t' || c == '\n' || c == '\r' || c == '\x0b' || c == '\x0c'

/-- Python `str.strip()` (whitespace at both ends). -/
def stripL (s : List Char) : List Char :=
  ((s.dropWhile isPyWS).reverse.dropWhile isPyWS).reverse

def lowerL (s : List Char) : List Char := s.map Char.toLower

/-- Python `s.split(sep)[0]` for a one-character separator:
everything before the first occurrence. -/
def beforeChar (sep : Char) (s : List Char) : List Char :=
  s.takeWhile (· ≠ sep)

/-- Remove every occurrence of `x` (models `os.remove` on a path set). -/
def removeF (fs : List String) (x : String) : List String :=
  fs.filter (· ≠ x)

-- ============================================================================
-- Prefix matchers for the regular expressions used by the sources.
-- `re.match(pat, s)` succeeds iff `pat` matches some prefix of `s`; each
-- pattern below is transcribed as a prefix parser.  All character classes
-- in the source patterns exclude the literal that follows them, so greedy
-- matching is equivalent to the regex semantics.
-- ============================================================================

/-- A prefix parser: consume a prefix, return the rest (or fail). -/
def P : Type := List Char → Option (List Char)

def pLit (lit : String) : P := fun s =>
  if isPrefixL lit.data s then some (s.drop lit.data.length) else none

def pCls (p : Char → Bool) : P := fun s =>
  match s with
  | c :: t => if p c then some t else none
  | [] => none

def pSeq (a b : P) : P := fun s => (a s).bind b

def pAlt (a b : P) : P := fun s =>
  match a s with
  | some t => some t
  | none => b s

def pOpt (a : P) : P := fun s =>
  match a s with
  | some t => some t
  | none => some s

/-- Greedy `class+` (one or more characters of a class). -/
def pPlusCls (p : Char → Bool) : P := fun s =>
  match s with
  | c :: t => if p c then some (t.dropWhile p) else none
  | [] => none

def pRun (ps : List P) : P := ps.foldr pSeq (fun s => some s)

def pMatches (m : P) (s : List Char) : Bool := (m s).isSome

/-- Python `\w` (ASCII view: letter, digit or underscore). -/
def isWordC (c : Char) : Bool := c.isAlpha || c.isDigit || c == '_'

def isWordDotDash (c : Char) : Bool := isWordC c || c == '.' || c == '-'

def isWordDash (c : Char) : Bool := isWordC c || c == '-'

def isAZ09UD (c : Char) : Bool := c.isAlpha || c.isDigit || c == '_' || c == '-'

/-- `https?://` -/
def pHttp : P := pRun [pLit "http", pOpt (pLit "s"), pLit "://"]

-- ============================================================================
-- src/src/downloaders/tiktok.py — URL detection (TikTokDownloader)
-- ============================================================================

namespace TikTokDownloader

/-- `https?://(?:www\.|vm\.|vt\.|m\.)?tiktok\.com/(?:@[\w\.-]+/video/|t/[\w]+/|[\w]+)(?:\?.*)?`
(for prefix matching the trailing optional `(?:\?.*)?` is vacuous and dropped). -/
def videoPat1 : P :=
  pRun [pHttp, pOpt (pAlt (pLit "www.") (pAlt (pLit "vm.") (pAlt (pLit "vt.") (pLit "m.")))),
        pLit "tiktok.com/",
        pAlt (pRun [pLit "@", pPlusCls isWordDotDash, pLit "/video/"])
          (pAlt (pRun [pLit "t/", pPlusCls isWordC, pLit "/"])
            (pPlusCls isWordC))]

/-- `https?://(?:www\.)?tiktok\.com/(?:v|share)/\d+` -/
def videoPat2 : P :=
  pRun [pHttp, pOpt (pLit "www."), pLit "tiktok.com/",
        pAlt (pLit "v") (pLit "share"), pLit "/", pPlusCls Char.isDigit]

/-- `https?://vt\.tiktok\.com/[\w\-]+/` -/
def videoPat3 : P :=
  pRun [pHttp, pLit "vt.tiktok.com/", pPlusCls isWordDash, pLit "/"]

/-- `https?://vm\.tiktok\.com/[\w\-]+/` -/
def videoPat4 : P :=
  pRun [pHttp, pLit "vm.tiktok.com/", pPlusCls isWordDash, pLit "/"]

/-- `https?://(?:www\.|m\.)?tiktok\.com/@[\w\.-]+/photo/\d+` -/
def photoPat1 : P :=
  pRun [pHttp, pOpt (pAlt (pLit "www.") (pLit "m.")),
        pLit "tiktok.com/@", pPlusCls isWordDotDash, pLit "/photo/", pPlusCls Char.isDigit]

/-- `https?://(?:www\.|m\.)?tiktok\.com/photo/\d+` -/
def photoPat2 : P :=
  pRun [pHttp, pOpt (pAlt (pLit "www.") (pLit "m.")),
        pLit "tiktok.com/photo/", pPlusCls Char.isDigit]

/-- `https?://(?:www\.|m\.)?tiktok\.com/@[\w\.-]+/slideshow/\d+` -/
def slideshowPat : P :=
  pRun [pHttp, pOpt (pAlt (pLit "www.") (pLit "m.")),
        pLit "tiktok.com/@", pPlusCls isWordDotDash, pLit "/slideshow/", pPlusCls Char.isDigit]

/-- `TikTokDownloader.is_tiktok_url` (tiktok.py lines 127-156).
The `re.IGNORECASE` flag is modelled by matching on the lowercased
`url_clean = url.split('?')[0].strip()`. -/
def is_tiktok_url (url : String) : Bool × String :=
  if url = "" || !containsL "tiktok.com".data (lowerL url.data) then (false, "invalid")
  else
    let urlClean := lowerL (stripL (beforeChar '?' url.data))
    if pMatches photoPat1 urlClean || pMatches photoPat2 urlClean then (true, "photo")
    else if pMatches slideshowPat urlClean then (true, "slideshow")
    else if pMatches videoPat1 urlClean || pMatches videoPat2 urlClean
         || pMatches videoPat3 urlClean || pMatches videoPat4 urlClean then (true, "video")
    else (true, "video")  -- fallback: any other tiktok.com URL is assumed to be a video

end TikTokDownloader

-- ============================================================================
-- src/src/downloaders/youtube.py — URL detection (YouTubeDownloader)
-- ============================================================================

namespace YouTubeDownloader

def ytIdCls (c : Char) : Bool := isWordC c || c == '-'  -- `[\w\-_]` ('_' already in \w)

def ytPats : List P :=
  [ pRun [pHttp, pOpt (pLit "www."), pLit "youtube.com/watch?v=", pPlusCls ytIdCls],
    pRun [pHttp, pLit "youtu.be/", pPlusCls ytIdCls],
    pRun [pHttp, pOpt (pLit "www."), pLit "youtube.com/shorts/", pPlusCls ytIdCls],
    pRun [pHttp, pOpt (pLit "www."), pLit "youtube.com/embed/", pPlusCls ytIdCls],
    pRun [pHttp, pOpt (pLit "www."), pLit "youtube.com/v/", pPlusCls ytIdCls],
    pRun [pHttp, pOpt (pLit "www."), pLit "youtube.com/live/", pPlusCls ytIdCls],
    pRun [pHttp, pLit "music.youtube.com/watch?v=", pPlusCls ytIdCls] ]

/-- `YouTubeDownloader.is_youtube_url` (youtube.py lines 121-140):
any of the seven patterns matches a prefix of `url.lower().strip()`. -/
def is_youtube_url (url : String) : Bool :=
  if url = "" then false
  else
    let u := lowerL (stripL url.data)
    ytPats.any (fun p => pMatches p u)

end YouTubeDownloader

-- ============================================================================
-- src/src/downloaders/instagram.py — URL detection and id extraction
-- ============================================================================

namespace InstagramDownloader

/-- `InstagramDownloader.is_instagram_url` (instagram.py lines 126-152). -/
def is_instagram_url (url : String) : Bool × String :=
  let lo := lowerL url.data
  if url = "" || (!containsL "instagram.com".data lo && !containsL "instagr.am".data lo) then
    (false, "invalid")
  else if containsL "/reel/".data lo then (true, "reel")
  else if containsL "/p/".data lo then (true, "post")
  else if containsL "/stories/".data lo then (true, "story")
  else if containsL "/tv/".data lo then (true, "igtv")
  else if containsL "/video/".data lo then (true, "video")
  else (true, "unknown")

/-- Try pattern 1 of `extract_media_id` at one position:
`/(?:reel|p|tv|video)/([A-Za-z0-9_-]+)` — a literal alternative followed by a
non-empty run of `[A-Za-z0-9_-]`, returning the captured group. -/
def mediaIdPat1At (s : List Char) : Option String :=
  let tryLit := fun (lit : String) =>
    match pLit lit s with
    | some rest =>
        let cap := rest.takeWhile isAZ09UD
        if cap = [] then none else some (String.mk cap)
    | none => none
  match tryLit "/reel/" with
  | some r => some r
  | none =>
    match tryLit "/p/" with
    | some r => some r
    | none =>
      match tryLit "/tv/" with
      | some r => some r
      | none => tryLit "/video/"

/-- Try pattern 2 of `extract_media_id` at one position:
`instagram\.com/(?:reels?/)?([A-Za-z0-9_-]+)`. -/
def mediaIdPat2At (s : List Char) : Option String :=
  match pLit "instagram.com/" s with
  | none => none
  | some rest =>
    let rest2 :=
      match pLit "reels/" rest with
      | some r => r
      | none =>
        match pLit "reel/" rest with
        | some r => r
        | none => rest
    let cap := rest2.takeWhile isAZ09UD
    if cap = [] then none else some (String.mk cap)

/-- `re.search`: try a positional matcher at every position, leftmost first. -/
def searchAt (f : List Char → Option String) : List Char → Option String
  | [] => f []
  | c :: rest =>
    match f (c :: rest) with
    | some r => some r
    | none => searchAt f rest

/-- Split on `&` (the separator used by `parse_qs`), accumulator version. -/
def splitAmpGo (cur : List Char) : List Char → List (List Char)
  | [] => [cur.reverse]
  | c :: rest =>
    if c = '&' then cur.reverse :: splitAmpGo [] rest else splitAmpGo (c :: cur) rest

def splitAmp (s : List Char) : List (List Char) := splitAmpGo [] s

/-- The `parse_qs` fallback of `extract_media_id`: the first non-empty value of
the `id` query parameter (`parse_qs` drops blank values).  Percent-decoding is
omitted — no claim depends on the decoded value. -/
def queryIdParam (url : String) : Option String :=
  match url.data.dropWhile (· ≠ '?') with
  | [] => none
  | _ :: q =>
    let q := q.takeWhile (· ≠ '#')
    (splitAmp q).findSome? fun kv =>
      if isPrefixL "id=".data kv && 3 < kv.length then some (String.mk (kv.drop 3)) else none

/-- `InstagramDownloader.extract_media_id` (instagram.py lines 154-180):
`re.search` with the two patterns in order, then the `id` query parameter. -/
def extract_media_id (url : String) : Option String :=
  match searchAt mediaIdPat1At url.data with
  | some r => some r
  | none =>
    match searchAt mediaIdPat2At url.data with
    | some r => some r
    | none => queryIdParam url

end InstagramDownloader

-- ============================================================================
-- src/src/downloaders/pinterest.py — URL detection and pin id extraction
-- ============================================================================

namespace PinterestDownloader

/-- `(?:com|fr|de|co\.uk|ru|etc)` — the TLD alternation of the pin patterns. -/
def pinTld : P :=
  pAlt (pLit "com") (pAlt (pLit "fr") (pAlt (pLit "de") (pAlt (pLit "co.uk") (pAlt (pLit "ru") (pLit "etc")))))

/-- `https?://(?:www\.)?pinterest\.(?:com|fr|de|co\.uk|ru|etc)/pin/(\d+)` -/
def pinPat : P :=
  pRun [pHttp, pOpt (pLit "www."), pLit "pinterest.", pinTld, pLit "/pin/", pPlusCls Char.isDigit]

/-- `https?://(?:www\.)?pinterest\.(?:com|fr|de|co\.uk|ru|etc)/[^/]+/[^/]+/` -/
def imagePat : P :=
  pRun [pHttp, pOpt (pLit "www."), pLit "pinterest.", pinTld, pLit "/",
        pPlusCls (· ≠ '/'), pLit "/", pPlusCls (· ≠ '/'), pLit "/"]

/-- `https?://pin\.it/[\w]+` -/
def pinItPat : P := pRun [pHttp, pLit "pin.it/", pPlusCls isWordC]

/-- `https?://pin\.it/[\w]+\?.*` -/
def pinItParamsPat : P := pRun [pHttp, pLit "pin.it/", pPlusCls isWordC, pLit "?"]

/-- `PinterestDownloader.is_pinterest_url` (pinterest.py lines 79-82):
`re.match` of any of the four patterns (case-sensitive, on the raw URL). -/
def is_pinterest_url (url : String) : Bool :=
  pMatches pinPat url.data || pMatches imagePat url.data
  || pMatches pinItPat url.data || pMatches pinItParamsPat url.data

/-- The `pin` pattern at one position with its `(\d+)` capture. -/
def pinIdAt (s : List Char) : Option String :=
  match pRun [pHttp, pOpt (pLit "www."), pLit "pinterest.", pinTld, pLit "/pin/"] s with
  | none => none
  | some rest =>
    let cap := rest.takeWhile Char.isDigit
    if cap = [] then none else some (String.mk cap)

/-- `PinterestDownloader.extract_pin_id` (pinterest.py lines 84-87):
`re.search` of the `pin` pattern, returning the digit capture. -/
def extract_pin_id (url : String) : Option String :=
  InstagramDownloader.searchAt pinIdAt url.data

end PinterestDownloader

-- ============================================================================
-- Shared Python idioms
-- ============================================================================

/-- Python `a or b` where `a : Optional[str]` and `""` is falsy
(e.g. `self.extract_media_id(url) or f"ig_{int(time.time())}"`). -/
def pyOrStr (a : Option String) (b : String) : String :=
  match a with
  | some s => if s = "" then b else s
  | none => b

-- ============================================================================
-- src/src/downloaders/tiktok.py — content resolution (TikTokContentInfo,
-- TikTokDownloader.get_content_info)
-- ============================================================================

namespace TikTokDownloader

/-- The `TikTokContentInfo` dataclass (tiktok.py lines 24-44). -/
structure TikTokContentInfo where
  id : String
  content_type : String
  title : String
  uploader : String
  duration : Int
  view_count : Int
  like_count : Int
  comment_count : Int
  share_count : Int
  description : String
  thumbnail_url : String
  download_url : String
  width : Int
  height : Int
  is_private : Bool
  timestamp : Int
  music_title : String
  music_author : String
deriving DecidableEq, Repr

/-- The default record built at the top of `get_content_info`
(tiktok.py lines 210-229).  `extract_content_id` ends in a `yt_dlp` network
call, so its result is an input; `ts` stands for `int(time.time())`. -/
def defaultInfo (extractedId : Option String) (ts : Int) : TikTokContentInfo :=
  { id := pyOrStr extractedId ("tt_" ++ toString ts)
    content_type := "video"
    title := "Contenido de TikTok"
    uploader := "Usuario de TikTok"
    duration := 0, view_count := 0, like_count := 0, comment_count := 0, share_count := 0
    description := "", thumbnail_url := "", download_url := ""
    width := 0, height := 0
    is_private := false
    timestamp := ts
    music_title := "", music_author := "" }

/-- The merge loop of `get_content_info` (tiktok.py lines 250-254): every
truthy field of the obtained record overwrites the default record's field
(`if hasattr(info, field) and getattr(info, field): setattr(default_info, ...)`).
Truthiness: non-empty for strings, non-zero for ints, `True` for bools. -/
def mergeTruthy (d i : TikTokContentInfo) : TikTokContentInfo :=
  { id := if i.id ≠ "" then i.id else d.id
    content_type := if i.content_type ≠ "" then i.content_type else d.content_type
    title := if i.title ≠ "" then i.title else d.title
    uploader := if i.uploader ≠ "" then i.uploader else d.uploader
    duration := if i.duration ≠ 0 then i.duration else d.duration
    view_count := if i.view_count ≠ 0 then i.view_count else d.view_count
    like_count := if i.like_count ≠ 0 then i.like_count else d.like_count
    comment_count := if i.comment_count ≠ 0 then i.comment_count else d.comment_count
    share_count := if i.share_count ≠ 0 then i.share_count else d.share_count
    description := if i.description ≠ "" then i.description else d.description
    thumbnail_url := if i.thumbnail_url ≠ "" then i.thumbnail_url else d.thumbnail_url
    download_url := if i.download_url ≠ "" then i.download_url else d.download_url
    width := if i.width ≠ 0 then i.width else d.width
    height := if i.height ≠ 0 then i.height else d.height
    is_private := if i.is_private then i.is_private else d.is_private
    timestamp := if i.timestamp ≠ 0 then i.timestamp else d.timestamp
    music_title := if i.music_title ≠ "" then i.music_title else d.music_title
    music_author := if i.music_author ≠ "" then i.music_author else d.music_author }

/-- `re.search(r'@([\w\.-]+)', url)` of the photo post-processing. -/
def userFromUrl (url : String) : Option String :=
  InstagramDownloader.searchAt
    (fun s =>
      match pLit "@" s with
      | none => none
      | some rest =>
        let cap := rest.takeWhile isWordDotDash
        if cap = [] then none else some (String.mk cap))
    url.data

/-- `TikTokDownloader.get_content_info` (tiktok.py lines 205-265).
The three information methods (`_get_info_ytdlp`, `_get_info_api`,
`_get_info_scraping`) perform network I/O; their results are inputs.
`_get_info_ytdlp` is only consulted when the URL classifies as a video;
the first method returning a record wins and its truthy fields are merged
over the default record; photos then get a fixed title and the `@user`
from the URL. -/
def get_content_info (url : String) (extractedId : Option String) (ts : Int)
    (mYtdlp mApi mScraping : Option TikTokContentInfo) : TikTokContentInfo :=
  let d0 := defaultInfo extractedId ts
  let contentType := (is_tiktok_url url).2
  let d := { d0 with content_type := contentType }
  let info : Option TikTokContentInfo := if contentType = "video" then mYtdlp else none
  let info := match info with | some i => some i | none => mApi
  let info := match info with | some i => some i | none => mScraping
  let merged := match info with | some i => mergeTruthy d i | none => d
  if contentType = "photo" then
    { merged with
      title := "Foto de TikTok"
      uploader := match userFromUrl url with | some u => u | none => merged.uploader }
  else merged

end TikTokDownloader

-- ============================================================================
-- src/src/downloaders/instagram.py — content resolution
-- ============================================================================

namespace InstagramDownloader

/-- The `InstagramContentInfo` dataclass (instagram.py lines 25-46). -/
structure InstagramContentInfo where
  id : String
  content_type : String
  title : String
  username : String
  full_name : String
  description : String
  like_count : Int
  comment_count : Int
  view_count : Int
  timestamp : Int
  duration : Int
  thumbnail_url : String
  download_urls : List String
  is_video : Bool
  width : Int
  height : Int
  media_count : Int
  music_title : String
  music_author : String
deriving DecidableEq, Repr

/-- The default record built at the top of `get_content_info`
(instagram.py lines 194-218), including the `content_type` overwrite from
`is_instagram_url`. -/
def defaultInfo (url : String) (ts : Int) : InstagramContentInfo :=
  { id := pyOrStr (extract_media_id url) ("ig_" ++ toString ts)
    content_type := (is_instagram_url url).2
    title := "Contenido de Instagram"
    username := "instagram_user"
    full_name := "Usuario de Instagram"
    description := ""
    like_count := 0, comment_count := 0, view_count := 0
    timestamp := ts, duration := 0
    thumbnail_url := ""
    download_urls := []
    is_video := false
    width := 0, height := 0, media_count := 1
    music_title := "", music_author := "" }

/-- `not info or not info.download_urls` — continue the method chain? -/
def needsMore : Option InstagramContentInfo → Bool
  | none => true
  | some i => i.download_urls.isEmpty

/-- `InstagramDownloader.get_content_info` (instagram.py lines 186-243).
The four methods (`_get_info_graphql`, `_get_info_oembed`, `_get_info_html`,
`_get_info_ytdlp`) perform network I/O; their results are inputs.  A method's
record is kept only if it has at least one download URL, later methods
*replace* (not merge) earlier results, and the default record is returned
only when the last method returned `None`. -/
def get_content_info (url : String) (ts : Int)
    (mGraphql mOembed mHtml mYtdlp : Option InstagramContentInfo) : InstagramContentInfo :=
  let d := defaultInfo url ts
  let info := mGraphql
  let info := if needsMore info then mOembed else info
  let info := if needsMore info then mHtml else info
  let info := if needsMore info then mYtdlp else info
  match info with
  | some i => i
  | none => d

/-- The JSON fields of an Instagram media node that `_parse_media_data`
reads (instagram.py lines 343-432).  `none` = key absent; `some` = key
present with that value (`some ""` = present but empty). -/
structure MediaData where
  idField : Option String := none
  shortcode : Option String := none
  is_video : Option Bool := none
  ownerUsername : Option String := none
  ownerFullName : Option String := none
  captionText : Option String := none
  like_count : Option Int := none
  comment_count : Option Int := none
  video_view_count : Option Int := none
  video_url : Option String := none
  video_versions : Option (List String) := none
  display_url : Option String := none
  display_resources : Option (List String) := none
  thumbnail_src : Option String := none
  dimensions : Option (Int × Int) := none
  musicTitle : Option String := none
  musicAuthor : Option String := none
deriving DecidableEq, Repr

/-- The result dictionary of `_parse_media_data`: every key is initialised
with a deterministic default, so all keys are always present. -/
structure ParsedMedia where
  pid : String
  ptype : String
  title : String
  username : String
  full_name : String
  description : String
  like_count : Int
  comment_count : Int
  view_count : Int
  timestamp : Int
  duration : Int
  thumbnail : String
  urls : List String
  is_video : Bool
  width : Int
  height : Int
  media_count : Int
  music_title : String
  music_author : String
deriving DecidableEq, Repr

/-- `InstagramDownloader._parse_media_data` (instagram.py lines 343-432).
Note `result['id'] = media_data.get('id') or media_data.get('shortcode') or ''`:
the id can end up as the empty string. -/
def parse_media_data (ts : Int) (m : MediaData) : ParsedMedia :=
  let isVid := m.is_video.getD false
  { pid := pyOrStr m.idField (pyOrStr m.shortcode "")
    ptype := match m.is_video with
             | some v => if v then "video" else "photo"
             | none => "unknown"
    title := ""
    username := match m.ownerUsername with | some u => u | none => ""
    full_name := match m.ownerFullName with | some f => f | none => ""
    description := match m.captionText with | some t => t | none => ""
    like_count := m.like_count.getD 0
    comment_count := m.comment_count.getD 0
    view_count := m.video_view_count.getD 0
    timestamp := ts
    duration := 0
    thumbnail := match m.thumbnail_src with
                 | some t => t
                 | none => match m.display_url with | some u => u | none => ""
    urls := if isVid then
              (match m.video_url with | some u => [u] | none => []) ++ (m.video_versions.getD [])
            else
              (match m.display_url with | some u => [u] | none => []) ++ (m.display_resources.getD [])
    is_video := isVid
    width := (m.dimensions.map Prod.fst).getD 0
    height := (m.dimensions.map Prod.snd).getD 0
    media_count := 1
    music_title := m.musicTitle.getD ""
    music_author := m.musicAuthor.getD "" }

/-- The record `_get_info_graphql` builds from a parsed media node
(instagram.py lines 272-292).  All the `media_data.get(k, default)` calls
take their value from the parsed dictionary, whose keys are always present,
so the per-field defaults are dead and the parsed values are repackaged
verbatim (with `title` defaulting through `'Instagram'` only if absent —
it never is). -/
def graphqlInfoOfParsed (p : ParsedMedia) : InstagramContentInfo :=
  { id := p.pid
    content_type := p.ptype
    title := p.title
    username := p.username
    full_name := p.full_name
    description := p.description
    like_count := p.like_count
    comment_count := p.comment_count
    view_count := p.view_count
    timestamp := p.timestamp
    duration := p.duration
    thumbnail_url := p.thumbnail
    download_urls := p.urls
    is_video := p.is_video
    width := p.width
    height := p.height
    media_count := p.media_count
    music_title := p.music_title
    music_author := p.music_author }

/-- The successful exit of `_get_info_graphql` through a parsed media node:
`if media_data and media_data.get('urls'): return InstagramContentInfo(...)`
(instagram.py lines 269-292).  Returns `none` when the parsed node has no
candidate URL (the loop then continues / the method returns `None`). -/
def graphqlResultOfMedia (ts : Int) (m : MediaData) : Option InstagramContentInfo :=
  let p := parse_media_data ts m
  if p.urls.isEmpty then none else some (graphqlInfoOfParsed p)

/-- The JSON fields of the Facebook oEmbed response that `_get_info_oembed`
reads (instagram.py lines 434-475); `none` = key absent, `some` = present. -/
structure OembedData where
  title : Option String := none
  author_name : Option String := none
  thumbnail_url : Option String := none
  width : Option Int := none
  height : Option Int := none
deriving DecidableEq, Repr

/-- The record `_get_info_oembed` builds from a 200 response (instagram.py
lines 449-469): the id and content type are copied from the default record,
and the (possibly empty) thumbnail URL becomes the single candidate. -/
def oembedInfoOfData (d : InstagramContentInfo) (ts : Int) (r : OembedData) :
    InstagramContentInfo :=
  { id := d.id
    content_type := d.content_type
    title := r.title.getD d.title
    username := (r.author_name.getD "").replace "@" ""
    full_name := r.author_name.getD d.full_name
    description := ""
    like_count := 0, comment_count := 0, view_count := 0
    timestamp := ts
    duration := 0
    thumbnail_url := r.thumbnail_url.getD ""
    download_urls := [r.thumbnail_url.getD ""]
    is_video := true
    width := r.width.getD 0
    height := r.height.getD 0
    media_count := 1
    music_title := "", music_author := "" }

/-- The metadata `_get_info_html` extracts from the page HTML (instagram.py
lines 484-496); a field is `some` exactly when its regex matched. -/
structure HtmlMeta where
  title : Option String := none
  description : Option String := none
  video_url : Option String := none
  image_url : Option String := none
  username : Option String := none
deriving DecidableEq, Repr

/-- The successful exit of `_get_info_html` (instagram.py lines 498-528):
a record is returned only when a video or image URL was found; the id and
content type are copied from the default record. -/
def htmlInfoOfMeta (d : InstagramContentInfo) (ts : Int) (r : HtmlMeta) :
    Option InstagramContentInfo :=
  let urls := (match r.video_url with | some u => [u] | none => [])
    ++ (match r.image_url with | some u => [u] | none => [])
  if urls.isEmpty then none
  else some
    { id := d.id
      content_type := d.content_type
      title := String.mk (stripL (((r.title.getD "").replace "• Instagram" "").data))
      username := r.username.getD d.username
      full_name := r.username.getD d.full_name
      description := (r.description.getD "").take 200
      like_count := 0, comment_count := 0, view_count := 0
      timestamp := ts
      duration := 0
      thumbnail_url := r.image_url.getD ""
      download_urls := urls
      is_video := r.video_url.isSome
      width := 0, height := 0
      media_count := 1
      music_title := "", music_author := "" }

/-- The fields of a yt-dlp info dictionary that `_get_info_ytdlp` reads
(instagram.py lines 534-576); `some ""` models a present-but-empty value. -/
structure YtdlpData where
  idField : Option String := none
  extractor_key : Option String := none
  title : Option String := none
  uploader : Option String := none
  description : Option String := none
  like_count : Option Int := none
  comment_count : Option Int := none
  view_count : Option Int := none
  timestamp : Option Int := none
  duration : Option Int := none
  thumbnail : Option String := none
  urlField : Option String := none
  format_urls : List String := []
  width : Option Int := none
  height : Option Int := none
  track : Option String := none
  artist : Option String := none
deriving DecidableEq, Repr

/-- The record `_get_info_ytdlp` builds (instagram.py lines 543-572):
only truthy URLs are collected (`if info.get('url')`, `if fmt.get('url')`),
the id is `info.get('id', default_info.id)` — empty when the field is
present but empty — and the content type is
`info.get('extractor_key', 'unknown').lower()`, the lowercased extractor
key, which the code does not force to be non-empty. -/
def ytdlpInfoOfData (d : InstagramContentInfo) (ts : Int) (r : YtdlpData) :
    InstagramContentInfo :=
  { id := r.idField.getD d.id
    content_type := (r.extractor_key.getD "unknown").toLower
    title := r.title.getD d.title
    username := r.uploader.getD d.username
    full_name := r.uploader.getD d.full_name
    description := r.description.getD ""
    like_count := r.like_count.getD 0
    comment_count := r.comment_count.getD 0
    view_count := r.view_count.getD 0
    timestamp := r.timestamp.getD ts
    duration := r.duration.getD 0
    thumbnail_url := r.thumbnail.getD ""
    download_urls := (match r.urlField with
        | some u => if u ≠ "" then [u] else []
        | none => []) ++ r.format_urls.filter (· ≠ "")
    is_video := decide (0 < r.duration.getD 0)
    width := r.width.getD 0
    height := r.height.getD 0
    media_count := 1
    music_title := r.track.getD ""
    music_author := r.artist.getD "" }

end InstagramDownloader

-- ============================================================================
-- src/src/downloaders/pinterest.py — content resolution
-- ============================================================================

namespace PinterestDownloader

/-- The `PinterestContentInfo` dataclass (pinterest.py lines 24-38). -/
structure PinterestContentInfo where
  id : String
  content_type : String
  title : String
  description : String
  uploader : String
  source_url : Option String
  pinterest_url : String
  download_urls : List String
  width : Int
  height : Int
  duration : Option Int := none
  is_video : Bool := false
deriving DecidableEq, Repr

/-- `PinterestDownloader.get_content_info` (pinterest.py lines 89-119).
The API and scraping lookups are network I/O; their results are inputs.
The API is only consulted when a token and a pin id are available; when
both lookups fail a basic default record with no download URLs is built. -/
def get_content_info (url : String) (ts : Int) (hasApiToken : Bool)
    (mApi mScraping : Option PinterestContentInfo) : PinterestContentInfo :=
  let pinId := extract_pin_id url
  let ci : Option PinterestContentInfo :=
    if hasApiToken && pinId.isSome then mApi else none
  let ci := match ci with | some c => some c | none => mScraping
  match ci with
  | some c => c
  | none =>
    { id := pyOrStr pinId ("pin_" ++ toString ts)
      content_type := "unknown"
      title := "Pin de Pinterest"
      description := ""
      uploader := ""
      source_url := none
      pinterest_url := url
      download_urls := []
      width := 0, height := 0 }

end PinterestDownloader

-- ============================================================================
-- src/src/utils/helpers.py
-- ============================================================================

/-- The normalisation at the top of `validate_url` (helpers.py lines 33-38):
strip, then prepend `https://` unless the URL already starts with a scheme. -/
def normalizeUrl (url : String) : String :=
  let u := stripL url.data
  if isPrefixL "http://".data u || isPrefixL "https://".data u then String.mk u
  else "https://" ++ String.mk u

/-- `validate_url` (helpers.py lines 23-88).  The source falls through a
platform's branch when the domain matches but the platform-specific check
fails; that control flow is the `&&` of guard and check below.  The body
performs no network operation — only substring tests and the pure pattern
checks above — and the `except ImportError` fallback is unreachable here
(the imports are the four modules embedded above). -/
def validate_url (url : String) : Bool × String :=
  if url = "" then (false, "invalid")
  else
    let u := normalizeUrl url
    let domain := lowerL u.data
    -- TikTok (the source's domain list repeats 'tiktok.com')
    if containsL "tiktok.com".data domain && (TikTokDownloader.is_tiktok_url u).1 then
      (true, "tiktok")
    -- YouTube
    else if (containsL "youtube.com".data domain || containsL "youtu.be".data domain)
        && YouTubeDownloader.is_youtube_url u then
      (true, "youtube")
    -- Instagram
    else if (containsL "instagram.com".data domain || containsL "instagr.am".data domain)
        && (InstagramDownloader.is_instagram_url u).1 then
      (true, "instagram")
    -- Pinterest
    else if (containsL "pinterest.com".data domain || containsL "pin.it".data domain
        || containsL "pinterest.co.uk".data domain || containsL "pinterest.fr".data domain
        || containsL "pinterest.de".data domain || containsL "pinterest.ru".data domain)
        && PinterestDownloader.is_pinterest_url u then
      (true, "pinterest")
    else (false, "unsupported")

/-- Round `t / d` to the nearest integer, ties to even — the rounding CPython
applies when formatting `t/d` with a fixed number of decimals (the quotients
formatted by `format_file_size` are exactly representable doubles for any
realistic size, so the float detour introduces no further error). -/
def rndHalfEven (t d : Nat) : Nat :=
  if 2 * (t % d) < d then t / d
  else if d < 2 * (t % d) then t / d + 1
  else if (t / d) % 2 = 0 then t / d else t / d + 1

/-- Python `f"{t/d:.1f}"`. -/
def fmtDec1 (t d : Nat) : String :=
  let v := rndHalfEven (10 * t) d
  toString (v / 10) ++ "." ++ toString (v % 10)

/-- Two-digit zero padding (`f"{n:02d}"` for `0 ≤ n < 100`). -/
def pad2 (n : Nat) : String :=
  if n < 10 then "0" ++ toString n else toString n

/-- Python `f"{t/d:.2f}"`. -/
def fmtDec2 (t d : Nat) : String :=
  let v := rndHalfEven (100 * t) d
  toString (v / 100) ++ "." ++ pad2 (v % 100)

/-- `format_file_size` (helpers.py lines 90-99). -/
def format_file_size (size_bytes : Nat) : String :=
  if size_bytes < 1024 then toString size_bytes ++ " B"
  else if size_bytes < 1024 * 1024 then fmtDec1 size_bytes 1024 ++ " KB"
  else if size_bytes < 1024 * 1024 * 1024 then fmtDec1 size_bytes (1024 * 1024) ++ " MB"
  else fmtDec2 size_bytes (1024 * 1024 * 1024) ++ " GB"

/-- `format_duration` (helpers.py lines 101-125).  The argument is
`Option ℚ`: `none` models Python `None`, `some s` a numeric value
(`int(seconds)` truncates toward zero, which on the positive branch is the
floor).  The `except` safety net concerns non-numeric inputs only. -/
def format_duration (seconds : Option ℚ) : String :=
  match seconds with
  | none => "00:00"
  | some s =>
    if s ≤ 0 then "00:00"
    else
      let secondsInt : ℕ := (⌊s⌋).toNat
      if secondsInt < 3600 then
        toString (secondsInt / 60) ++ ":" ++ pad2 (secondsInt % 60)
      else
        toString (secondsInt / 3600) ++ ":" ++ pad2 ((secondsInt % 3600) / 60)
          ++ ":" ++ pad2 (secondsInt % 60)

-- ============================================================================
-- Artifact cleanup (tiktok.py 691-704, instagram.py 827-846, youtube.py 739-758)
-- ============================================================================

/-- Last index of `c` in `cs`, or `-1` (Python `str.rfind`). -/
def rlastIdxGo (c : Char) : List Char → Nat → Int → Int
  | [], _, acc => acc
  | x :: rest, i, acc => rlastIdxGo c rest (i + 1) (if x = c then Int.ofNat i else acc)

def rlastIdx (cs : List Char) (c : Char) : Int := rlastIdxGo c cs 0 (-1)

/-- `os.path.splitext(p)[0]` (posixpath): split at the last `.` that comes
after the last `/`, unless the basename up to that dot consists only of
dots (e.g. `.bashrc` keeps its name). -/
def splitextBase (p : String) : String :=
  let cs := p.data
  let sepIdx := rlastIdx cs '/'
  let dotIdx := rlastIdx cs '.'
  if sepIdx < dotIdx then
    let nameStart := (sepIdx + 1).toNat
    let mid := (cs.drop nameStart).take (dotIdx.toNat - nameStart)
    if mid.any (· ≠ '.') then String.mk (cs.take dotIdx.toNat) else p
  else p

/-- The shared shape of the three `cleanup` methods: if the primary file
exists, remove it, then remove each existing sibling `base + ext`; if the
primary does not exist, do nothing.  The filesystem is the list of existing
paths. -/
def cleanupGeneric (exts : List String) (fs : List String) (filepath : String) : List String :=
  if filepath ∈ fs then
    let base := splitextBase filepath
    exts.foldl
      (fun acc ext => if (base ++ ext) ∈ acc then removeF acc (base ++ ext) else acc)
      (removeF fs filepath)
  else fs

namespace TikTokDownloader

/-- Sidecar extensions of `TikTokDownloader.cleanup` (tiktok.py line 698). -/
def sidecarExts : List String := [".jpg", ".jpeg", ".png", ".webp", ".part", ".ytdl"]

/-- `TikTokDownloader.cleanup` (tiktok.py lines 691-704). -/
def cleanup (fs : List String) (filepath : String) : List String :=
  cleanupGeneric sidecarExts fs filepath

end TikTokDownloader

namespace InstagramDownloader

/-- Sidecar extensions of `InstagramDownloader.cleanup` (instagram.py line 835). -/
def sidecarExts : List String := [".jpg", ".jpeg", ".png", ".webp", ".mp4", ".mov", ".part", ".ytdl"]

/-- `InstagramDownloader.cleanup` (instagram.py lines 827-846). -/
def cleanup (fs : List String) (filepath : String) : List String :=
  cleanupGeneric sidecarExts fs filepath

end InstagramDownloader

namespace YouTubeDownloader

/-- Sidecar extensions of `YouTubeDownloader.cleanup` (youtube.py line 747). -/
def sidecarExts : List String := [".jpg", ".jpeg", ".png", ".webp", ".part", ".ytdl", ".temp"]

/-- `YouTubeDownloader.cleanup` (youtube.py lines 739-758). -/
def cleanup (fs : List String) (filepath : String) : List String :=
  cleanupGeneric sidecarExts fs filepath

end YouTubeDownloader

-- ============================================================================
-- Retry loops (tiktok.py 457-528, youtube.py 969-1001)
-- ============================================================================

/-- Classification of one failed attempt, as the spec's taxonomy describes it
(`AcquisitionTransient` vs `AcquisitionTerminal`, e.g. gone/private/forbidden). -/
inductive FailKind where
  | transient
  | terminal
deriving DecidableEq, Repr

/-- The outcome of one attempt of one acquisition method. -/
inductive AttemptOutcome where
  | success (filepath : String)
  | failure (kind : FailKind)
deriving DecidableEq, Repr

/-- Forget the failure classification (the Python `except Exception` clauses
never inspect it). -/
def eraseKind : AttemptOutcome → AttemptOutcome
  | .success fp => .success fp
  | .failure _ => .failure .transient

/-- What a bounded retry loop did: how many attempts ran, which sleep
durations were taken, and the final result. -/
structure RetryTrace where
  attemptsMade : Nat
  delays : List Nat
  result : Option String
deriving DecidableEq, Repr

/-- A bounded fixed-delay retry loop: run attempts `i, i+1, ...` until one
succeeds or the budget is spent; every failed attempt is followed by a
fixed `delay` sleep (`time.sleep(2)` runs on every exception, including the
last one).  The failure kind is never consulted. -/
def retryFixedGo (att : Nat → AttemptOutcome) (delay : Nat) :
    Nat → Nat → List Nat → RetryTrace
  | i, 0, ds => ⟨i, ds.reverse, none⟩
  | i, rem + 1, ds =>
    match att i with
    | .success fp => ⟨i + 1, ds.reverse, some fp⟩
    | .failure _ => retryFixedGo att delay (i + 1) rem (delay :: ds)

def retryFixed (att : Nat → AttemptOutcome) (delay maxAttempts : Nat) : RetryTrace :=
  retryFixedGo att delay 0 maxAttempts []

namespace TikTokDownloader

/-- `max_attempts = 3` (tiktok.py line 459). -/
def max_attempts : Nat := 3

/-- `TikTokDownloader._download_video` (tiktok.py lines 457-528): up to
3 attempts of the single yt-dlp method, `time.sleep(2)` after each failure;
the `except Exception` clause retries every failure alike — no
transient/terminal distinction exists.  `att i` is the outcome of attempt
`i` (a network operation). -/
def download_video_trace (att : Nat → AttemptOutcome) : RetryTrace :=
  retryFixed att 2 max_attempts

end TikTokDownloader

namespace YouTubeDownloader

/-- The method rotation of `download_audio_with_retry` (youtube.py lines
969-1001): the three methods (Visitor Data, forced cookies, normal) are
each tried exactly once, with `time.sleep(2)` after each failure; the
`except Exception` clause never inspects the error.  `meth i` is the
outcome of method `i`. -/
def download_audio_with_retry_trace (meth : Nat → AttemptOutcome) : RetryTrace :=
  retryFixed meth 2 3

end YouTubeDownloader

-- ============================================================================
-- Acquisition and the size gate
-- (instagram.py 582-642, pinterest.py 292-328)
-- ============================================================================

/-- `MAX_FILE_SIZE = 1000 * 1024 * 1024` (config.py). -/
def MAX_FILE_SIZE : Nat := 1000 * 1024 * 1024

/-- The terminal errors the download operations raise, as a closed set
(the sources raise `ValueError` / `Exception` with fixed messages). -/
inductive DlError where
  | invalidUrl
  | noLinks
  | allMethodsFailed
  | fetchFailed
  | tooLarge
deriving DecidableEq, Repr

/-- A network operation issued during acquisition. -/
inductive NetOp where
  | directFetch (url : String)
  | ytdlpDownload (url : String)
  | serviceCall (name : String)
deriving DecidableEq, Repr

namespace InstagramDownloader

/-- The service names of `THIRD_PARTY_SERVICES` (instagram.py lines 75-94). -/
def serviceNames : List String := ["SaveFrom", "InstagramOnline", "InstaDownloader"]

/-- The method rotation of `InstagramDownloader.download` (instagram.py lines
599-635), with the network operations it issues recorded in order.
Method 1 tries each truthy candidate URL directly; method 2 runs yt-dlp on
the original URL; method 3 queries the three third-party services; each
oracle returns the produced file path or `none` for a caught failure.
When everything fails the source raises
`Exception("No se pudo descargar el contenido con ningún método...")`. -/
def acquire (url : String) (ci : InstagramContentInfo)
    (direct : String → Option String) (ytdlp : Option String)
    (svc : String → Option String) : List NetOp × Except DlError String :=
  -- Método 1: direct downloads from the resolved candidate URLs
  let step1 : List NetOp × Option String :=
    ci.download_urls.foldl
      (fun acc u =>
        match acc.2 with
        | some _ => acc
        | none => if u ≠ "" then (acc.1 ++ [NetOp.directFetch u], direct u) else acc)
      ([], none)
  -- Método 2: yt-dlp on the original URL
  let step2 : List NetOp × Option String :=
    match step1.2 with
    | some fp => (step1.1, some fp)
    | none => (step1.1 ++ [NetOp.ytdlpDownload url], ytdlp)
  -- Método 3: third-party services
  let step3 : List NetOp × Option String :=
    match step2.2 with
    | some fp => (step2.1, some fp)
    | none =>
      serviceNames.foldl
        (fun acc name =>
          match acc.2 with
          | some _ => acc
          | none => (acc.1 ++ [NetOp.serviceCall name], svc name))
        (step2.1, none)
  match step3.2 with
  | some fp => (step3.1, Except.ok fp)
  | none => (step3.1, Except.error DlError.allMethodsFailed)

/-- The size gate at the end of `InstagramDownloader.download` (instagram.py
lines 637-642): an artifact over `MAX_FILE_SIZE` is cleaned up via
`self.cleanup` and the download raises `ValueError("Archivo demasiado
grande ...")`. -/
def downloadSizeGate (fs : List String) (size : Nat) (filepath : String) :
    List String × Except DlError String :=
  if MAX_FILE_SIZE < size then (cleanup fs filepath, Except.error DlError.tooLarge)
  else (fs, Except.ok filepath)

end InstagramDownloader

namespace PinterestDownloader

/-- `PinterestDownloader.download` (pinterest.py lines 292-328) up to and
including the size gate, with its network operations recorded.  `fetch u`
is the byte size obtained by `_download_resource` for candidate `u`
(`none` = the request raised; nothing catches it).  An invalid URL or a
descriptor without candidates raises *before* any network operation. -/
def download (url : String) (ci : PinterestContentInfo)
    (fetch : String → Option Nat) : List NetOp × Except DlError Nat :=
  if !is_pinterest_url url then ([], Except.error DlError.invalidUrl)
  else if ci.download_urls.isEmpty then ([], Except.error DlError.noLinks)
  else
    let u := ci.download_urls.headD ""
    match fetch u with
    | none => ([NetOp.directFetch u], Except.error DlError.fetchFailed)
    | some size =>
      if MAX_FILE_SIZE < size then ([NetOp.directFetch u], Except.error DlError.tooLarge)
      else ([NetOp.directFetch u], Except.ok size)

/-- The size gate of `PinterestDownloader.download` in isolation
(pinterest.py lines 309-312): the oversized artifact is removed with
`os.remove(filepath)` — the removal is inlined rather than going through
`PinterestDownloader.cleanup` — and `ValueError("Archivo demasiado
grande ...")` is raised. -/
def downloadSizeGate (fs : List String) (size : Nat) (filepath : String) :
    List String × Except DlError String :=
  if MAX_FILE_SIZE < size then (removeF fs filepath, Except.error DlError.tooLarge)
  else (fs, Except.ok filepath)

end PinterestDownloader

-- ============================================================================
-- Helper lemmas about removal and cleanup
-- ============================================================================

theorem mem_removeF {fs : List String} {x y : String} :
    x ∈ removeF fs y ↔ x ∈ fs ∧ x ≠ y := by
  simp [removeF]

theorem removeF_of_not_mem {fs : List String} {y : String} (h : y ∉ fs) :
    removeF fs y = fs := by
  apply List.filter_eq_self.mpr
  intro a ha
  simp only [ne_eq, decide_not, Bool.not_eq_true', decide_eq_false_iff_not]
  intro hay
  exact h (hay ▸ ha)

/-- Membership after the sidecar-removal fold of `cleanupGeneric`. -/
theorem mem_sidecarFold (base : String) (exts : List String) (acc : List String) (x : String) :
    x ∈ exts.foldl
        (fun acc ext => if (base ++ ext) ∈ acc then removeF acc (base ++ ext) else acc) acc
    ↔ x ∈ acc ∧ ∀ e ∈ exts, x ≠ base ++ e := by
  induction exts generalizing acc with
  | nil => simp
  | cons e es ih =>
    simp only [List.foldl_cons]
    have hstep : (if (base ++ e) ∈ acc then removeF acc (base ++ e) else acc)
        = removeF acc (base ++ e) := by
      split
      · rfl
      · exact (removeF_of_not_mem (by assumption)).symm
    rw [hstep, ih]
    constructor
    · rintro ⟨hx, hall⟩
      rcases mem_removeF.mp hx with ⟨hx', hne⟩
      exact ⟨hx', by
        intro e' he'
        rcases List.mem_cons.mp he' with h | h
        · exact h ▸ hne
        · exact hall e' h⟩
    · rintro ⟨hx, hall⟩
      refine ⟨mem_removeF.mpr ⟨hx, hall e (List.mem_cons_self e es)⟩, ?_⟩
      intro e' he'
      exact hall e' (List.mem_cons_of_mem e he')

/-- Membership after `cleanupGeneric`. -/
theorem mem_cleanupGeneric (exts fs : List String) (fp x : String) :
    x ∈ cleanupGeneric exts fs fp
    ↔ if fp ∈ fs then x ∈ fs ∧ x ≠ fp ∧ ∀ e ∈ exts, x ≠ splitextBase fp ++ e
      else x ∈ fs := by
  unfold cleanupGeneric
  split
  · rw [mem_sidecarFold, mem_removeF]
    tauto
  · rfl

theorem cleanupGeneric_not_mem_self (exts fs : List String) (fp : String) :
    fp ∉ cleanupGeneric exts fs fp := by
  intro h
  rw [mem_cleanupGeneric] at h
  by_cases hfp : fp ∈ fs
  · rw [if_pos hfp] at h
    exact h.2.1 rfl
  · rw [if_neg hfp] at h
    exact hfp h

theorem cleanupGeneric_missing (exts fs : List String) (fp : String) (h : fp ∉ fs) :
    cleanupGeneric exts fs fp = fs := by
  unfold cleanupGeneric
  exact if_neg h

theorem cleanupGeneric_idem (exts fs : List String) (fp : String) :
    cleanupGeneric exts (cleanupGeneric exts fs fp) fp = cleanupGeneric exts fs fp :=
  cleanupGeneric_missing exts _ fp (cleanupGeneric_not_mem_self exts fs fp)

theorem cleanupGeneric_removes_sidecars (exts fs : List String) (fp : String)
    (hfp : fp ∈ fs) (e : String) (he : e ∈ exts) :
    (splitextBase fp ++ e) ∉ cleanupGeneric exts fs fp := by
  intro h
  rw [mem_cleanupGeneric, if_pos hfp] at h
  exact h.2.2 e he rfl

-- ============================================================================
-- Claim theorems
-- ============================================================================

/-- C3: for every acquired artifact whose byte size exceeds the configured
global ceiling `MAX_FILE_SIZE`, the download operation (Instagram and
Pinterest) rejects it with a too-large outcome, the file is cleaned up
before returning, and the file no longer exists afterward.  (Pinterest
performs the removal inline with `os.remove`; Instagram goes through its
`cleanup` method.) -/
theorem size_gate_rejects_oversized (fs : List String) (size : Nat) (fp : String)
    (h : MAX_FILE_SIZE < size) :
    ((InstagramDownloader.downloadSizeGate fs size fp).2 = Except.error DlError.tooLarge
      ∧ fp ∉ (InstagramDownloader.downloadSizeGate fs size fp).1)
    ∧ ((PinterestDownloader.downloadSizeGate fs size fp).2 = Except.error DlError.tooLarge
      ∧ fp ∉ (PinterestDownloader.downloadSizeGate fs size fp).1) := by
  unfold InstagramDownloader.downloadSizeGate PinterestDownloader.downloadSizeGate
  rw [if_pos h, if_pos h]
  refine ⟨⟨rfl, ?_⟩, ⟨rfl, ?_⟩⟩
  · exact cleanupGeneric_not_mem_self _ fs fp
  · intro hmem
    exact (mem_removeF.mp hmem).2 rfl

theorem size_gate_rejects_oversized_witness :
    ((InstagramDownloader.downloadSizeGate ["big.mp4"] (MAX_FILE_SIZE + 1) "big.mp4").2
        = Except.error DlError.tooLarge
      ∧ "big.mp4" ∉ (InstagramDownloader.downloadSizeGate ["big.mp4"] (MAX_FILE_SIZE + 1) "big.mp4").1)
    ∧ ((PinterestDownloader.downloadSizeGate ["big.mp4"] (MAX_FILE_SIZE + 1) "big.mp4").2
        = Except.error DlError.tooLarge
      ∧ "big.mp4" ∉ (PinterestDownloader.downloadSizeGate ["big.mp4"] (MAX_FILE_SIZE + 1) "big.mp4").1) :=
  size_gate_rejects_oversized ["big.mp4"] (MAX_FILE_SIZE + 1) "big.mp4" (Nat.lt_succ_self _)

/-- C4: cleanup is idempotent on every platform: a second invocation on the
same path changes nothing, and an invocation on a path that names no
existing file changes nothing (and, being a total function, never fails —
the source wraps the removals in `try/except`). -/
theorem cleanup_idempotent (fs : List String) (p : String) :
    (TikTokDownloader.cleanup (TikTokDownloader.cleanup fs p) p = TikTokDownloader.cleanup fs p
      ∧ InstagramDownloader.cleanup (InstagramDownloader.cleanup fs p) p
          = InstagramDownloader.cleanup fs p
      ∧ YouTubeDownloader.cleanup (YouTubeDownloader.cleanup fs p) p
          = YouTubeDownloader.cleanup fs p)
    ∧ (p ∉ fs →
        TikTokDownloader.cleanup fs p = fs
        ∧ InstagramDownloader.cleanup fs p = fs
        ∧ YouTubeDownloader.cleanup fs p = fs) := by
  refine ⟨⟨?_, ?_, ?_⟩, fun h => ⟨?_, ?_, ?_⟩⟩
  · exact cleanupGeneric_idem _ fs p
  · exact cleanupGeneric_idem _ fs p
  · exact cleanupGeneric_idem _ fs p
  · exact cleanupGeneric_missing _ fs p h
  · exact cleanupGeneric_missing _ fs p h
  · exact cleanupGeneric_missing _ fs p h

theorem cleanup_idempotent_witness :
    TikTokDownloader.cleanup (TikTokDownloader.cleanup ["a.mp4", "a.jpg"] "a.mp4") "a.mp4"
      = TikTokDownloader.cleanup ["a.mp4", "a.jpg"] "a.mp4"
    ∧ TikTokDownloader.cleanup ["b.mp4"] "a.mp4" = ["b.mp4"] :=
  ⟨(cleanup_idempotent ["a.mp4", "a.jpg"] "a.mp4").1.1,
   ((cleanup_idempotent ["b.mp4"] "a.mp4").2 (by decide)).1⟩

/-- C5 counterexample: the claim says that after `cleanup(path)` the primary
file *and every sidecar sibling* have been removed, for every path.  But the
sibling removal only runs when the primary exists: cleaning up `x.mp4` while
only the sidecar `x.part` exists leaves `x.part` in place. -/
theorem cleanup_orphan_sidecar_cex :
    ".part" ∈ TikTokDownloader.sidecarExts
    ∧ splitextBase "x.mp4" ++ ".part" = "x.part"
    ∧ TikTokDownloader.cleanup ["x.part"] "x.mp4" = ["x.part"] := by
  refine ⟨by decide, by decide, by decide⟩

/-- C5 (amended): whenever the primary file exists, cleanup removes it and
every sibling file sharing its base name under the platform's fixed sidecar
extension set; when the primary file does not exist, cleanup leaves the
filesystem unchanged (in particular, orphan sidecars are not removed). -/
theorem cleanup_removes_primary_and_sidecars (fs : List String) (p : String) :
    (p ∈ fs →
      (p ∉ TikTokDownloader.cleanup fs p
        ∧ ∀ e ∈ TikTokDownloader.sidecarExts,
            splitextBase p ++ e ∉ TikTokDownloader.cleanup fs p)
      ∧ (p ∉ InstagramDownloader.cleanup fs p
        ∧ ∀ e ∈ InstagramDownloader.sidecarExts,
            splitextBase p ++ e ∉ InstagramDownloader.cleanup fs p)
      ∧ (p ∉ YouTubeDownloader.cleanup fs p
        ∧ ∀ e ∈ YouTubeDownloader.sidecarExts,
            splitextBase p ++ e ∉ YouTubeDownloader.cleanup fs p))
    ∧ (p ∉ fs →
        TikTokDownloader.cleanup fs p = fs
        ∧ InstagramDownloader.cleanup fs p = fs
        ∧ YouTubeDownloader.cleanup fs p = fs) := by
  constructor
  · intro hp
    refine ⟨⟨?_, ?_⟩, ⟨?_, ?_⟩, ⟨?_, ?_⟩⟩
    · exact cleanupGeneric_not_mem_self _ fs p
    · exact fun e he => cleanupGeneric_removes_sidecars _ fs p hp e he
    · exact cleanupGeneric_not_mem_self _ fs p
    · exact fun e he => cleanupGeneric_removes_sidecars _ fs p hp e he
    · exact cleanupGeneric_not_mem_self _ fs p
    · exact fun e he => cleanupGeneric_removes_sidecars _ fs p hp e he
  · intro h
    exact ⟨cleanupGeneric_missing _ fs p h, cleanupGeneric_missing _ fs p h,
      cleanupGeneric_missing _ fs p h⟩

theorem cleanup_removes_primary_and_sidecars_witness :
    "a.mp4" ∉ TikTokDownloader.cleanup ["a.mp4", "a.part"] "a.mp4"
    ∧ "a.part" ∉ TikTokDownloader.cleanup ["a.mp4", "a.part"] "a.mp4" :=
  ⟨((cleanup_removes_primary_and_sidecars ["a.mp4", "a.part"] "a.mp4").1 (by decide)).1.1,
   by
     have h := ((cleanup_removes_primary_and_sidecars ["a.mp4", "a.part"] "a.mp4").1
       (by decide)).1.2 ".part" (by decide)
     simpa using h⟩

/-- Erasing the failure classification does not change a retry loop:
the `except Exception` handlers never look at the error. -/
theorem retryFixedGo_eraseKind (att : Nat → AttemptOutcome) (delay : Nat) :
    ∀ (rem i : Nat) (ds : List Nat),
      retryFixedGo (fun j => eraseKind (att j)) delay i rem ds
        = retryFixedGo att delay i rem ds := by
  intro rem
  induction rem with
  | zero => intro i ds; rfl
  | succ n ih =>
    intro i ds
    simp only [retryFixedGo]
    cases h : att i with
    | success fp => simp [h, eraseKind]
    | failure k =>
      simp only [h, eraseKind]
      exact ih (i + 1) (delay :: ds)

theorem retryFixedGo_attempts_le (att : Nat → AttemptOutcome) (delay : Nat) :
    ∀ (rem i : Nat) (ds : List Nat),
      (retryFixedGo att delay i rem ds).attemptsMade ≤ i + rem := by
  intro rem
  induction rem with
  | zero => intro i ds; simp [retryFixedGo]
  | succ n ih =>
    intro i ds
    simp only [retryFixedGo]
    cases h : att i with
    | success fp => simp only [h]; omega
    | failure k =>
      simp only [h]
      have := ih (i + 1) (delay :: ds)
      omega

theorem retryFixedGo_delays_fixed (att : Nat → AttemptOutcome) (delay : Nat) :
    ∀ (rem i : Nat) (ds : List Nat), ds.all (· == delay) →
      ((retryFixedGo att delay i rem ds).delays.all (· == delay)) = true := by
  intro rem
  induction rem with
  | zero =>
    intro i ds h
    simpa [retryFixedGo, List.all_reverse] using h
  | succ n ih =>
    intro i ds h
    simp only [retryFixedGo]
    cases att i with
    | success fp => simpa [List.all_reverse] using h
    | failure k =>
      exact ih (i + 1) (delay :: ds) (by simpa using h)

/-- C6 counterexample: the claim says a terminal failure (gone, private,
forbidden) triggers an immediate method switch with zero additional retries,
while a transient failure is retried exactly `max_attempts` times before
moving to the next method.  The code never classifies failures: TikTok's
`_download_video` retries a terminally failing yt-dlp call for the full
3-attempt budget (3 attempts made, not 1), and YouTube's
`download_audio_with_retry` moves to the second method after a single
transient failure of the first (2 attempts made, with zero retries of
method 0). -/
theorem retry_classification_cex :
    (TikTokDownloader.download_video_trace (fun _ => .failure .terminal)).attemptsMade = 3
    ∧ (YouTubeDownloader.download_audio_with_retry_trace
        (fun i => if i = 0 then .failure .transient else .success "a.m4a")).attemptsMade = 2 := by
  constructor <;> rfl

/-- C6 (amended): both retry loops are blind to the transient/terminal
classification of a failure — erasing the classification changes nothing;
every inter-attempt delay is the fixed 2 seconds (not exponential); TikTok's
video download makes at most `max_attempts = 3` attempts of its single
yt-dlp method, and YouTube's audio retry makes at most one attempt of each
of its 3 methods. -/
theorem retry_fixed_and_unclassified (att : Nat → AttemptOutcome) :
    TikTokDownloader.download_video_trace (fun i => eraseKind (att i))
      = TikTokDownloader.download_video_trace att
    ∧ YouTubeDownloader.download_audio_with_retry_trace (fun i => eraseKind (att i))
      = YouTubeDownloader.download_audio_with_retry_trace att
    ∧ (TikTokDownloader.download_video_trace att).attemptsMade ≤ TikTokDownloader.max_attempts
    ∧ ((TikTokDownloader.download_video_trace att).delays.all (· == 2)) = true
    ∧ (YouTubeDownloader.download_audio_with_retry_trace att).attemptsMade ≤ 3
    ∧ ((YouTubeDownloader.download_audio_with_retry_trace att).delays.all (· == 2)) = true := by
  refine ⟨?_, ?_, ?_, ?_, ?_, ?_⟩
  · exact retryFixedGo_eraseKind att 2 TikTokDownloader.max_attempts 0 []
  · exact retryFixedGo_eraseKind att 2 3 0 []
  · simpa using retryFixedGo_attempts_le att 2 TikTokDownloader.max_attempts 0 []
  · exact retryFixedGo_delays_fixed att 2 TikTokDownloader.max_attempts 0 [] rfl
  · simpa using retryFixedGo_attempts_le att 2 3 0 []
  · exact retryFixedGo_delays_fixed att 2 3 0 [] rfl

/-- C7: for every non-empty URL on which every platform check fails after
normalisation (no TikTok, YouTube, Instagram or Pinterest pattern matches),
`validate_url` returns the unsupported result.  `validate_url` and the four
platform checks are pure string/pattern functions — the source issues no
network call on any path of `validate_url`, so in particular none is issued
before returning `(False, "unsupported")`, and no resolution strategy is
invoked. -/
theorem validate_url_unsupported (url : String) (h0 : url ≠ "")
    (h1 : (TikTokDownloader.is_tiktok_url (normalizeUrl url)).1 = false)
    (h2 : YouTubeDownloader.is_youtube_url (normalizeUrl url) = false)
    (h3 : (InstagramDownloader.is_instagram_url (normalizeUrl url)).1 = false)
    (h4 : PinterestDownloader.is_pinterest_url (normalizeUrl url) = false) :
    validate_url url = (false, "unsupported") := by
  unfold validate_url
  rw [if_neg h0]
  simp [h1, h2, h3, h4]

theorem validate_url_unsupported_witness :
    validate_url "https://example.com/page" = (false, "unsupported") :=
  validate_url_unsupported "https://example.com/page" (by decide) (by rfl) (by rfl)
    (by rfl) (by rfl)

/-- C10: `format_duration` is total over `None` and all numeric inputs
(the model is a total function; the source catches the only possible
conversion errors): it returns `"00:00"` for `None` and for every input
`≤ 0`, and for `0 < s < 3600` it returns unpadded minutes and two-digit
zero-padded seconds separated by a colon, with minutes `= ⌊s⌋ / 60` and
seconds `= ⌊s⌋ % 60` (for positive `s`, Python `int(s)` is the floor). -/
theorem format_duration_spec :
    format_duration none = "00:00"
    ∧ (∀ q : ℚ, q ≤ 0 → format_duration (some q) = "00:00")
    ∧ (∀ q : ℚ, 0 < q → q < 3600 →
        format_duration (some q)
          = toString ((⌊q⌋).toNat / 60) ++ ":" ++ pad2 ((⌊q⌋).toNat % 60)) := by
  refine ⟨rfl, ?_, ?_⟩
  · intro q h
    simp [format_duration, h]
  · intro q h0 h1
    have hfl : (⌊q⌋).toNat < 3600 := by
      have h2 : ⌊q⌋ < 3600 := by
        rw [Int.floor_lt]
        exact_mod_cast h1
      omega
    simp [format_duration, not_le.mpr h0, hfl]

theorem format_duration_spec_witness :
    format_duration (some (125 : ℚ))
      = toString ((⌊(125 : ℚ)⌋).toNat / 60) ++ ":" ++ pad2 ((⌊(125 : ℚ)⌋).toNat % 60)
    ∧ format_duration (some (125 : ℚ)) = "2:05" := by
  have h := format_duration_spec.2.2 125 (by norm_num) (by norm_num)
  exact ⟨h, by rw [h]; decide⟩

-- ============================================================================
-- Suffix and rounding lemmas for `format_file_size`
-- ============================================================================

/-- Does `s` end with `t`? -/
def strEndsWith (t s : String) : Bool := isPrefixL t.data.reverse s.data.reverse

theorem isPrefixL_self_append (l m : List Char) : isPrefixL l (l ++ m) = true := by
  induction l with
  | nil => rfl
  | cons a as ih => simp [isPrefixL, ih]

theorem strEndsWith_append_self (s t : String) : strEndsWith t (s ++ t) = true := by
  unfold strEndsWith
  have hd : (s ++ t).data = s.data ++ t.data := rfl
  rw [hd, List.reverse_append]
  exact isPrefixL_self_append _ _

theorem isPrefixL_append_of_le (u : List Char) :
    ∀ (t m : List Char), u.length ≤ t.length → isPrefixL u (t ++ m) = isPrefixL u t := by
  induction u with
  | nil => intro t m _; rfl
  | cons a as ih =>
    intro t m h
    cases t with
    | nil => simp at h
    | cons b bs =>
      simp [isPrefixL, ih bs m (by simpa using h)]

/-- A string ending in the three-character tag `t` does not end in the
(shorter or equal) tag `u` unless `u` is a suffix of `t`. -/
theorem strEndsWith_append_ne (u t s : String)
    (hlen : u.data.length ≤ t.data.length)
    (hne : isPrefixL u.data.reverse t.data.reverse = false) :
    strEndsWith u (s ++ t) = false := by
  unfold strEndsWith
  have hd : (s ++ t).data = s.data ++ t.data := rfl
  rw [hd, List.reverse_append,
    isPrefixL_append_of_le u.data.reverse t.data.reverse s.data.reverse (by simpa using hlen)]
  exact hne

/-- `rndHalfEven t d` differs from the exact quotient `t / d` by at most one
half (it is a correct nearest-integer rounding). -/
theorem rndHalfEven_close (t d : Nat) (hd : 0 < d) :
    |(rndHalfEven t d : ℚ) - t / d| ≤ 1 / 2 := by
  have hdq : (0 : ℚ) < (d : ℚ) := by exact_mod_cast hd
  have hnat : d * (t / d) + t % d = t := Nat.div_add_mod t d
  have hq : ((t : ℚ)) = (d : ℚ) * ((t / d : Nat) : ℚ) + ((t % d : Nat) : ℚ) := by
    exact_mod_cast hnat.symm
  have key : (t : ℚ) / d = ((t / d : Nat) : ℚ) + ((t % d : Nat) : ℚ) / d := by
    rw [hq]; field_simp; ring
  have hr : t % d < d := Nat.mod_lt _ hd
  have hr0 : (0 : ℚ) ≤ ((t % d : Nat) : ℚ) / d := by positivity
  have hr1 : ((t % d : Nat) : ℚ) / d < 1 := by
    rw [div_lt_one hdq]
    exact_mod_cast hr
  unfold rndHalfEven
  split
  · rename_i hlt
    have : ((t % d : Nat) : ℚ) / d < 1 / 2 := by
      rw [div_lt_div_iff₀ hdq (by norm_num)]
      have h2 : ((2 * (t % d) : Nat) : ℚ) < (d : ℚ) := by exact_mod_cast hlt
      push_cast at h2
      linarith
    rw [key, abs_le]
    constructor <;> linarith
  · split
    · rename_i hgt
      have : (1 : ℚ) / 2 < ((t % d : Nat) : ℚ) / d := by
        rw [div_lt_div_iff₀ (by norm_num) hdq]
        have h2 : (d : ℚ) < ((2 * (t % d) : Nat) : ℚ) := by exact_mod_cast hgt
        push_cast at h2
        linarith
      rw [key, abs_le]
      push_cast
      constructor <;> linarith
    · rename_i hnlt hngt
      have heq : 2 * (t % d) = d := by omega
      have : ((t % d : Nat) : ℚ) / d = 1 / 2 := by
        have h2 : ((2 * (t % d) : Nat) : ℚ) = (d : ℚ) := by exact_mod_cast congrArg (Nat.cast (R := ℚ)) heq
        push_cast at h2
        field_simp
        linarith
      split
      · rw [key, abs_le]
        constructor <;> linarith
      · rw [key, abs_le]
        push_cast
        constructor <;> linarith

/-- A suffix test that fails on the reversed prefix fails on any extension
(used to tell the unit tags of `format_file_size` apart). -/
theorem strEndsWith_lit (u t s : String)
    (h : ∀ rest, isPrefixL u.data.reverse (t.data.reverse ++ rest) = false) :
    strEndsWith u (s ++ t) = false := by
  unfold strEndsWith
  rw [show (s ++ t).data = s.data ++ t.data from rfl, List.reverse_append]
  exact h _

/-- C9 counterexample: the claim says the numeric part of `format_file_size n`
equals `n` divided by the corresponding power of 1024.  At `n = 1537` the
output is `"1.5 KB"`, whose numeric part 1.5 differs from the exact quotient
`1537 / 1024 = 1.5009…` — the code prints the quotient rounded to one
decimal (two for GB), not the quotient itself. -/
theorem format_file_size_cex :
    format_file_size 1537 = "1.5 KB" ∧ (1537 : ℚ) / 1024 ≠ 15 / 10 := by
  constructor
  · rfl
  · norm_num

/-- C9 (amended): `format_file_size n` carries unit `"B"` exactly when
`n < 1024`, `"KB"` exactly when `1024 ≤ n < 1024²`, `"MB"` exactly when
`1024² ≤ n < 1024³`, and `"GB"` otherwise; the numeric part is the exact
quotient `n / 1024^k` rounded to one decimal (two decimals for GB), hence
within 1/20 (resp. 1/200) of the quotient. -/
theorem format_file_size_units (n : Nat) :
    (strEndsWith " B" (format_file_size n) = true ↔ n < 1024)
    ∧ (strEndsWith " KB" (format_file_size n) = true ↔ 1024 ≤ n ∧ n < 1024 * 1024)
    ∧ (strEndsWith " MB" (format_file_size n) = true
        ↔ 1024 * 1024 ≤ n ∧ n < 1024 * 1024 * 1024)
    ∧ (strEndsWith " GB" (format_file_size n) = true ↔ 1024 * 1024 * 1024 ≤ n)
    ∧ (1024 ≤ n → n < 1024 * 1024 →
        format_file_size n = fmtDec1 n 1024 ++ " KB"
        ∧ |(rndHalfEven (10 * n) 1024 : ℚ) / 10 - (n : ℚ) / 1024| ≤ 1 / 20)
    ∧ (1024 * 1024 ≤ n → n < 1024 * 1024 * 1024 →
        format_file_size n = fmtDec1 n (1024 * 1024) ++ " MB"
        ∧ |(rndHalfEven (10 * n) (1024 * 1024) : ℚ) / 10 - (n : ℚ) / (1024 * 1024)| ≤ 1 / 20)
    ∧ (1024 * 1024 * 1024 ≤ n →
        format_file_size n = fmtDec2 n (1024 * 1024 * 1024) ++ " GB"
        ∧ |(rndHalfEven (100 * n) (1024 * 1024 * 1024) : ℚ) / 100
            - (n : ℚ) / (1024 * 1024 * 1024)| ≤ 1 / 200) := by
  by_cases hb : n < 1024
  · have hf : format_file_size n = toString n ++ " B" := by
      simp [format_file_size, hb]
    rw [hf]
    refine ⟨iff_of_true (strEndsWith_append_self _ _) hb,
      iff_of_false (by rw [strEndsWith_lit " KB" " B" (toString n) (fun _ => rfl)]; simp)
        (by omega),
      iff_of_false (by rw [strEndsWith_lit " MB" " B" (toString n) (fun _ => rfl)]; simp)
        (by omega),
      iff_of_false (by rw [strEndsWith_lit " GB" " B" (toString n) (fun _ => rfl)]; simp)
        (by omega),
      fun h1 _ => absurd h1 (by omega),
      fun h1 _ => absurd h1 (by omega),
      fun h1 => absurd h1 (by omega)⟩
  · by_cases hkb : n < 1024 * 1024
    · have hf : format_file_size n = fmtDec1 n 1024 ++ " KB" := by
        simp [format_file_size, hb, hkb]
      rw [hf]
      refine ⟨iff_of_false
          (by rw [strEndsWith_lit " B" " KB" (fmtDec1 n 1024) (fun _ => rfl)]; simp) hb,
        iff_of_true (strEndsWith_append_self _ _) ⟨by omega, hkb⟩,
        iff_of_false
          (by rw [strEndsWith_lit " MB" " KB" (fmtDec1 n 1024) (fun _ => rfl)]; simp)
          (by omega),
        iff_of_false
          (by rw [strEndsWith_lit " GB" " KB" (fmtDec1 n 1024) (fun _ => rfl)]; simp)
          (by omega),
        fun _ _ => ⟨rfl, ?_⟩,
        fun h1 _ => absurd h1 (by omega),
        fun h1 => absurd h1 (by omega)⟩
      have h := rndHalfEven_close (10 * n) 1024 (by norm_num)
      rw [abs_le] at h ⊢
      push_cast at h
      constructor <;> linarith
    · by_cases hmb : n < 1024 * 1024 * 1024
      · have hf : format_file_size n = fmtDec1 n (1024 * 1024) ++ " MB" := by
          simp [format_file_size, hb, hkb, hmb]
        rw [hf]
        refine ⟨iff_of_false
            (by rw [strEndsWith_lit " B" " MB" (fmtDec1 n (1024 * 1024)) (fun _ => rfl)]; simp)
            hb,
          iff_of_false
            (by rw [strEndsWith_lit " KB" " MB" (fmtDec1 n (1024 * 1024)) (fun _ => rfl)]; simp)
            (by omega),
          iff_of_true (strEndsWith_append_self _ _) ⟨by omega, hmb⟩,
          iff_of_false
            (by rw [strEndsWith_lit " GB" " MB" (fmtDec1 n (1024 * 1024)) (fun _ => rfl)]; simp)
            (by omega),
          fun _ h2 => absurd h2 hkb,
          fun _ _ => ⟨rfl, ?_⟩,
          fun h1 => absurd h1 (by omega)⟩
        have h := rndHalfEven_close (10 * n) (1024 * 1024) (by norm_num)
        rw [abs_le] at h ⊢
        push_cast at h
        constructor <;> linarith
      · have hf : format_file_size n = fmtDec2 n (1024 * 1024 * 1024) ++ " GB" := by
          simp [format_file_size, hb, hkb, hmb]
        rw [hf]
        refine ⟨iff_of_false
            (by rw [strEndsWith_lit " B" " GB"
              (fmtDec2 n (1024 * 1024 * 1024)) (fun _ => rfl)]; simp) hb,
          iff_of_false
            (by rw [strEndsWith_lit " KB" " GB"
              (fmtDec2 n (1024 * 1024 * 1024)) (fun _ => rfl)]; simp)
            (by omega),
          iff_of_false
            (by rw [strEndsWith_lit " MB" " GB"
              (fmtDec2 n (1024 * 1024 * 1024)) (fun _ => rfl)]; simp)
            (by omega),
          iff_of_true (strEndsWith_append_self _ _) (by omega),
          fun h1 _ => absurd h1 (by omega),
          fun h1 _ => absurd h1 (by omega),
          fun _ => ⟨rfl, ?_⟩⟩
        have h := rndHalfEven_close (100 * n) (1024 * 1024 * 1024) (by norm_num)
        rw [abs_le] at h ⊢
        push_cast at h
        constructor <;> linarith

theorem format_file_size_units_witness :
    format_file_size 1537 = fmtDec1 1537 1024 ++ " KB"
    ∧ |(rndHalfEven (10 * 1537) 1024 : ℚ) / 10 - (1537 : ℚ) / 1024| ≤ 1 / 20 :=
  (format_file_size_units 1537).2.2.2.2.1 (by norm_num) (by norm_num)

-- ============================================================================
-- Non-emptiness facts for descriptor ids and content kinds
-- ============================================================================

theorem append_ne_empty_left (s t : String) (h : s ≠ "") : s ++ t ≠ "" := by
  intro hc
  apply h
  have h2 : s.data ++ t.data = [] := by
    have := congrArg String.data hc
    simpa using this
  have h3 : s.data = [] := (List.append_eq_nil.mp h2).1
  cases s
  simp_all

theorem pyOrStr_ne_empty (a : Option String) (b : String) (h : b ≠ "") :
    pyOrStr a b ≠ "" := by
  unfold pyOrStr
  cases a with
  | none => exact h
  | some s =>
    by_cases hs : s = "" <;> simp [hs, h]

/-- `is_tiktok_url` always reports a non-empty content type
(`invalid`, `photo`, `slideshow` or `video`). -/
theorem is_tiktok_url_kind_ne (url : String) :
    (TikTokDownloader.is_tiktok_url url).2 ≠ "" := by
  unfold TikTokDownloader.is_tiktok_url
  repeat' split <;> simp_all

/-- `is_instagram_url` always reports a non-empty content type. -/
theorem is_instagram_url_kind_ne (url : String) :
    (InstagramDownloader.is_instagram_url url).2 ≠ "" := by
  unfold InstagramDownloader.is_instagram_url
  dsimp only
  repeat' split <;> simp_all

theorem tiktok_defaultInfo_id_ne (extractedId : Option String) (ts : Int) :
    (TikTokDownloader.defaultInfo extractedId ts).id ≠ "" :=
  pyOrStr_ne_empty _ _ (append_ne_empty_left "tt_" (toString ts) (by decide))

/-- C1 counterexample: the claim says every returned descriptor has a
non-empty id.  Instagram's graphql strategy builds its record from
`_parse_media_data`, whose id is `media_data.get('id') or
media_data.get('shortcode') or ''`: a media node carrying only a
`display_url` wins the chain (it has a candidate URL) with `id == ''`,
and `get_content_info` returns that record as-is. -/
theorem instagram_empty_id_cex :
    (InstagramDownloader.graphqlResultOfMedia 1700000000
        { display_url := some "https://cdn.example/x.jpg" }).isSome = true
    ∧ (InstagramDownloader.get_content_info "https://www.instagram.com/p/Cabc/" 1700000000
        (InstagramDownloader.graphqlResultOfMedia 1700000000
          { display_url := some "https://cdn.example/x.jpg" })
        none none none).id = "" := by
  constructor <;> rfl

/-- `_parse_media_data` always sets a non-empty type
(`unknown`, `video` or `photo` — instagram.py lines 347, 372-374). -/
theorem parse_media_data_ptype_ne (ts : Int) (m : InstagramDownloader.MediaData) :
    (InstagramDownloader.parse_media_data ts m).ptype ≠ "" := by
  rcases hv : m.is_video with _ | v
  · simp [InstagramDownloader.parse_media_data, hv]
  · cases v <;> simp [InstagramDownloader.parse_media_data, hv]

/-- The Instagram method chain returns either the default record or one of
the four method results verbatim (instagram.py lines 220-243). -/
theorem insta_get_content_info_cases (url : String) (ts : Int)
    (m1 m2 m3 m4 : Option InstagramDownloader.InstagramContentInfo) :
    InstagramDownloader.get_content_info url ts m1 m2 m3 m4
        = InstagramDownloader.defaultInfo url ts
    ∨ m1 = some (InstagramDownloader.get_content_info url ts m1 m2 m3 m4)
    ∨ m2 = some (InstagramDownloader.get_content_info url ts m1 m2 m3 m4)
    ∨ m3 = some (InstagramDownloader.get_content_info url ts m1 m2 m3 m4)
    ∨ m4 = some (InstagramDownloader.get_content_info url ts m1 m2 m3 m4) := by
  simp only [InstagramDownloader.get_content_info]
  split
  · rename_i i heq
    split at heq
    · -- the first method was skipped; split on the remaining chain
      split at heq
      · split at heq
        · exact Or.inr (Or.inr (Or.inr (Or.inr heq)))
        · exact Or.inr (Or.inr (Or.inr (Or.inl heq)))
      · exact Or.inr (Or.inr (Or.inl heq))
    · exact Or.inr (Or.inl heq)
  · exact Or.inl rfl

/-- If every strategy record that exists carries a non-empty content type,
then so does the resolved Instagram descriptor (it is either such a record
or the classified default). -/
theorem insta_kind_of_sound_strategies (url : String) (ts : Int)
    (m1 m2 m3 m4 : Option InstagramDownloader.InstagramContentInfo)
    (hk1 : ∀ i, m1 = some i → i.content_type ≠ "")
    (hk2 : ∀ i, m2 = some i → i.content_type ≠ "")
    (hk3 : ∀ i, m3 = some i → i.content_type ≠ "")
    (hk4 : ∀ i, m4 = some i → i.content_type ≠ "") :
    (InstagramDownloader.get_content_info url ts m1 m2 m3 m4).content_type ≠ "" := by
  rcases insta_get_content_info_cases url ts m1 m2 m3 m4 with h | h | h | h | h
  · rw [h]
    exact is_instagram_url_kind_ne url
  · exact hk1 _ h
  · exact hk2 _ h
  · exact hk3 _ h
  · exact hk4 _ h

/-- C1 (amended): resolution is total (never raises — the sources absorb
every per-strategy failure).  The TikTok descriptor's id and content kind
are non-empty for every resolution (truthy-field merging cannot erase the
synthesized defaults).  The Instagram descriptor's id is non-empty whenever
every strategy failed (default record), and its content kind is non-empty
for every resolution in which each strategy record carries a non-empty
content kind — which the graphql, oEmbed and HTML-scraping strategies
always guarantee, while the yt-dlp strategy copies the lowercased extractor
key verbatim, with no such guarantee.  A winning Instagram strategy's
record is otherwise returned as-is, so its id may be empty (see the
counterexample). -/
theorem resolution_id_and_kind (url : String) (extractedId : Option String) (ts : Int)
    (m1 m2 m3 : Option TikTokDownloader.TikTokContentInfo)
    (n1 n2 n3 n4 : Option InstagramDownloader.InstagramContentInfo)
    (hk1 : ∀ i, n1 = some i → i.content_type ≠ "")
    (hk2 : ∀ i, n2 = some i → i.content_type ≠ "")
    (hk3 : ∀ i, n3 = some i → i.content_type ≠ "")
    (hk4 : ∀ i, n4 = some i → i.content_type ≠ "") :
    (TikTokDownloader.get_content_info url extractedId ts m1 m2 m3).id ≠ ""
    ∧ (TikTokDownloader.get_content_info url extractedId ts m1 m2 m3).content_type ≠ ""
    ∧ (InstagramDownloader.get_content_info url ts none none none none).id ≠ ""
    ∧ (InstagramDownloader.get_content_info url ts n1 n2 n3 n4).content_type ≠ ""
    ∧ (∀ ts2 md i, InstagramDownloader.graphqlResultOfMedia ts2 md = some i →
        i.content_type ≠ "")
    ∧ (∀ ts2 r, (InstagramDownloader.oembedInfoOfData
        (InstagramDownloader.defaultInfo url ts) ts2 r).content_type ≠ "")
    ∧ (∀ ts2 r i, InstagramDownloader.htmlInfoOfMeta
        (InstagramDownloader.defaultInfo url ts) ts2 r = some i →
        i.content_type ≠ "")
    ∧ (∀ ts2 r, (InstagramDownloader.ytdlpInfoOfData
        (InstagramDownloader.defaultInfo url ts) ts2 r).content_type
        = (r.extractor_key.getD "unknown").toLower) := by
  have hinsta : InstagramDownloader.get_content_info url ts none none none none
      = InstagramDownloader.defaultInfo url ts := by
    simp [InstagramDownloader.get_content_info, InstagramDownloader.needsMore]
  have hdid := tiktok_defaultInfo_id_ne extractedId ts
  refine ⟨?_, ?_, ?_, ?_, ?_, ?_, ?_, ?_⟩
  · simp only [TikTokDownloader.get_content_info]
    split <;> (try split) <;>
      simp_all [TikTokDownloader.mergeTruthy] <;>
      split <;> simp_all
  · simp only [TikTokDownloader.get_content_info]
    have hkind := is_tiktok_url_kind_ne url
    split <;> (try split) <;>
      simp_all [TikTokDownloader.mergeTruthy] <;>
      split <;> simp_all
  · rw [hinsta]
    exact pyOrStr_ne_empty _ _ (append_ne_empty_left "ig_" (toString ts) (by decide))
  · exact insta_kind_of_sound_strategies url ts n1 n2 n3 n4 hk1 hk2 hk3 hk4
  · intro ts2 md i h
    simp only [InstagramDownloader.graphqlResultOfMedia] at h
    split at h
    · exact absurd h (by simp)
    · injection h with h2
      rw [← h2]
      exact parse_media_data_ptype_ne ts2 md
  · intro ts2 r
    exact is_instagram_url_kind_ne url
  · intro ts2 r i h
    simp only [InstagramDownloader.htmlInfoOfMeta] at h
    split at h
    · exact absurd h (by simp)
    · injection h with h2
      rw [← h2]
      exact is_instagram_url_kind_ne url
  · intro ts2 r
    rfl

theorem resolution_id_and_kind_witness :
    (TikTokDownloader.get_content_info "https://vm.tiktok.com/ZMabc/" none 1700000000
        none none none).id ≠ ""
    ∧ (TikTokDownloader.get_content_info "https://vm.tiktok.com/ZMabc/" none 1700000000
        none none none).content_type ≠ ""
    ∧ (InstagramDownloader.get_content_info "https://vm.tiktok.com/ZMabc/" 1700000000
        none none none none).id ≠ ""
    ∧ (InstagramDownloader.get_content_info "https://vm.tiktok.com/ZMabc/" 1700000000
        none none none none).content_type ≠ "" := by
  have h := resolution_id_and_kind "https://vm.tiktok.com/ZMabc/" none 1700000000
    none none none none none none none
    (by simp) (by simp) (by simp) (by simp)
  exact ⟨h.1, h.2.1, h.2.2.1, h.2.2.2.1⟩

-- ============================================================================
-- Sample strategy records for the precedence claims
-- ============================================================================

/-- A TikTok API-strategy record with one candidate URL but a falsy title. -/
def ttApiRecord : TikTokDownloader.TikTokContentInfo :=
  { id := "7421", content_type := "video", title := "", uploader := "alice"
    duration := 15, view_count := 100, like_count := 5, comment_count := 1, share_count := 0
    description := "", thumbnail_url := "", download_url := "https://cdn.tiktok.example/v.mp4"
    width := 720, height := 1280, is_private := false, timestamp := 1700000000
    music_title := "", music_author := "" }

/-- An Instagram strategy record with one candidate URL. -/
def igOembedRecord : InstagramDownloader.InstagramContentInfo :=
  { id := "Cabc", content_type := "post", title := "t", username := "bob"
    full_name := "Bob", description := "", like_count := 0, comment_count := 0
    view_count := 0, timestamp := 1700000000, duration := 0
    thumbnail_url := "https://cdn.ig.example/t.jpg"
    download_urls := ["https://cdn.ig.example/t.jpg"], is_video := true
    width := 0, height := 0, media_count := 1, music_title := "", music_author := "" }

/-- C2 counterexample: the claim says the winning strategy's descriptor is
returned exactly, with no field-by-field merging from the default record.
In the TikTok downloader, with the first strategy yielding nothing and the
API strategy winning with one candidate URL but an empty title, the
returned descriptor is *not* the winner's record: its falsy title has been
replaced by the default `"Contenido de TikTok"`. -/
theorem tiktok_merge_cex :
    ttApiRecord.download_url ≠ ""
    ∧ TikTokDownloader.get_content_info "https://www.tiktok.com/@user/video/7421"
        none 1700000000 none (some ttApiRecord) none ≠ ttApiRecord
    ∧ (TikTokDownloader.get_content_info "https://www.tiktok.com/@user/video/7421"
        none 1700000000 none (some ttApiRecord) none).title = "Contenido de TikTok"
    ∧ ttApiRecord.title = "" := by
  refine ⟨by decide, by decide, by decide, by decide⟩

/-- C2 (amended): in the Instagram downloader, when an earlier strategy
yields zero candidate URLs and a later strategy yields at least one, the
winning strategy's record is returned exactly with no merging; in the
TikTok downloader the winning record is instead merged field-by-field over
the default record — each truthy field of the winner overwrites the
default, falsy fields keep the default values. -/
theorem strategy_precedence (url : String) (extractedId : Option String) (ts : Int)
    (m1 : Option InstagramDownloader.InstagramContentInfo)
    (i2 : InstagramDownloader.InstagramContentInfo)
    (m3 m4 : Option InstagramDownloader.InstagramContentInfo)
    (t2 : TikTokDownloader.TikTokContentInfo)
    (h1 : InstagramDownloader.needsMore m1 = true)
    (h2 : i2.download_urls ≠ [])
    (hv : (TikTokDownloader.is_tiktok_url url).2 = "video") :
    InstagramDownloader.get_content_info url ts m1 (some i2) m3 m4 = i2
    ∧ TikTokDownloader.get_content_info url extractedId ts none (some t2) none
      = TikTokDownloader.mergeTruthy
          { TikTokDownloader.defaultInfo extractedId ts with content_type := "video" } t2 := by
  constructor
  · have h3 : InstagramDownloader.needsMore (some i2) = false := by
      cases h : i2.download_urls with
      | nil => exact absurd h h2
      | cons a as => simp [InstagramDownloader.needsMore, h]
    simp [InstagramDownloader.get_content_info, h1, h3]
  · simp [TikTokDownloader.get_content_info, hv]

theorem strategy_precedence_witness :
    InstagramDownloader.get_content_info "https://www.instagram.com/p/Cxy/" 1700000000
        none (some igOembedRecord) none none = igOembedRecord
    ∧ TikTokDownloader.get_content_info "https://www.tiktok.com/@user/video/7421"
        none 1700000000 none (some ttApiRecord) none
      = TikTokDownloader.mergeTruthy
          { TikTokDownloader.defaultInfo none 1700000000 with content_type := "video" }
          ttApiRecord :=
  strategy_precedence "https://www.tiktok.com/@user/video/7421" none 1700000000
    none igOembedRecord none none ttApiRecord rfl (by decide) (by decide)

/-- C8 counterexample: the claim says that after a resolution in which every
strategy failed (descriptor with `candidate_urls == []`), acquisition fails
immediately with an exhausted-sources error and issues no network call.
In the Instagram downloader, acquisition on such a descriptor still runs
yt-dlp on the original page URL — a network operation — and can even
succeed, returning a file instead of an error. -/
theorem instagram_acquire_after_exhaustion_cex :
    (InstagramDownloader.get_content_info "https://www.instagram.com/p/Cabc/" 1700000000
        none none none none).download_urls = []
    ∧ (InstagramDownloader.acquire "https://www.instagram.com/p/Cabc/"
        (InstagramDownloader.get_content_info "https://www.instagram.com/p/Cabc/" 1700000000
          none none none none)
        (fun _ => none) (some "instagram_post_Cabc.mp4") (fun _ => none)).1
      = [NetOp.ytdlpDownload "https://www.instagram.com/p/Cabc/"]
    ∧ (InstagramDownloader.acquire "https://www.instagram.com/p/Cabc/"
        (InstagramDownloader.get_content_info "https://www.instagram.com/p/Cabc/" 1700000000
          none none none none)
        (fun _ => none) (some "instagram_post_Cabc.mp4") (fun _ => none)).2
      = Except.ok "instagram_post_Cabc.mp4" := by
  refine ⟨rfl, rfl, rfl⟩

/-- C8 (amended): when every strategy fails, both resolvers return a
descriptor with an empty candidate list; on such a descriptor Pinterest's
download raises the no-links error immediately, issuing no network
operation; Instagram's download, however, still issues the yt-dlp fetch of
the original URL and the three third-party service calls before raising its
all-methods-failed error. -/
theorem exhausted_resolution_behaviour (url : String) (ts : Int) (hasApiToken : Bool)
    (ci : PinterestDownloader.PinterestContentInfo)
    (ici : InstagramDownloader.InstagramContentInfo)
    (fetch : String → Option Nat)
    (direct : String → Option String)
    (hp : PinterestDownloader.is_pinterest_url url = true)
    (hc : ci.download_urls = [])
    (hi : ici.download_urls = []) :
    (InstagramDownloader.get_content_info url ts none none none none).download_urls = []
    ∧ (PinterestDownloader.get_content_info url ts hasApiToken none none).download_urls = []
    ∧ PinterestDownloader.download url ci fetch = ([], Except.error DlError.noLinks)
    ∧ InstagramDownloader.acquire url ici direct none (fun _ => none)
      = ([NetOp.ytdlpDownload url, NetOp.serviceCall "SaveFrom",
          NetOp.serviceCall "InstagramOnline", NetOp.serviceCall "InstaDownloader"],
         Except.error DlError.allMethodsFailed) := by
  refine ⟨?_, ?_, ?_, ?_⟩
  · simp only [InstagramDownloader.get_content_info, InstagramDownloader.needsMore]
    rfl
  · simp only [PinterestDownloader.get_content_info]
    split
    · simp_all
    · rfl
  · simp [PinterestDownloader.download, hp, hc]
  · simp only [InstagramDownloader.acquire, hi]
    rfl

theorem exhausted_resolution_behaviour_witness :
    (InstagramDownloader.get_content_info "https://www.pinterest.com/pin/99/" 1700000000
        none none none none).download_urls = []
    ∧ (PinterestDownloader.get_content_info "https://www.pinterest.com/pin/99/" 1700000000
        false none none).download_urls = []
    ∧ PinterestDownloader.download "https://www.pinterest.com/pin/99/"
        (PinterestDownloader.get_content_info "https://www.pinterest.com/pin/99/" 1700000000
          false none none)
        (fun _ => none)
      = ([], Except.error DlError.noLinks)
    ∧ InstagramDownloader.acquire "https://www.pinterest.com/pin/99/"
        (InstagramDownloader.get_content_info "https://www.pinterest.com/pin/99/" 1700000000
          none none none none)
        (fun _ => none) none (fun _ => none)
      = ([NetOp.ytdlpDownload "https://www.pinterest.com/pin/99/",
          NetOp.serviceCall "SaveFrom", NetOp.serviceCall "InstagramOnline",
          NetOp.serviceCall "InstaDownloader"],
         Except.error DlError.allMethodsFailed) :=
  exhausted_resolution_behaviour "https://www.pinterest.com/pin/99/" 1700000000 false
    (PinterestDownloader.get_content_info "https://www.pinterest.com/pin/99/" 1700000000
      false none none)
    (InstagramDownloader.get_content_info "https://www.pinterest.com/pin/99/" 1700000000
      none none none none)
    (fun _ => none) (fun _ => none) (by rfl) (by rfl) (by rfl)
